import Mathlib

/-!
Verification of the cloud-addon-registry-cli core against its specification.

The Rust sources are embedded shallowly: pure logic becomes Lean functions,
I/O-dependent code is parametrised over the outcomes of its I/O actions
(HTTP responses, file reads/writes, subprocess exit statuses), and machine
integers become `Nat`/`Int` (Rust `i64`/`u16` values occurring here are far
from the overflow boundaries, except where noted).
-/

namespace AddonCli

/-! ## Port validation (src/dto/addons.rs, `open_validate_addons_file`)

Rust `str::split` with a single-character separator, embedded on `List Char`:
`"a:b"` splits to `["a", "b"]`, `""` to `[""]`, `":"` to `["", ""]`. -/

def splitOnChar (sep : Char) : List Char → List (List Char)
  | [] => [[]]
  | c :: rest =>
    match splitOnChar sep rest with
    | [] => [[c]]
    | h :: t => if c = sep then [] :: h :: t else (c :: h) :: t

/-- Value of an ASCII decimal digit, as accepted by Rust's integer parsing. -/
def digitVal? (c : Char) : Option Nat :=
  if '0' ≤ c ∧ c ≤ '9' then some (c.toNat - '0'.toNat) else none

def digitsValAux : Nat → List Char → Option Nat
  | acc, [] => some acc
  | acc, c :: rest =>
    match digitVal? c with
    | some d => digitsValAux (acc * 10 + d) rest
    | none => none

/-- Rust `str::parse::<u16>()`: an optional leading `+`, then a non-empty
run of ASCII digits whose value fits in 16 bits; anything else is `Err`. -/
def parseU16 (s : List Char) : Option Nat :=
  let t := match s with
           | '+' :: rest => rest
           | _ => s
  match t with
  | [] => none
  | _ :: _ =>
    match digitsValAux 0 t with
    | some v => if v ≤ 65535 then some v else none
    | none => none

/-- The distinct error exits of the port-validation block of
`open_validate_addons_file` (each corresponds to one `Err` message). -/
inductive PortError where
  | protocolNotTcpUdp : PortError
  | tooManyColonSegments : PortError
  | tooManyRangeSegments : PortError
  | privilegedPort (v : Nat) : PortError
  | notANumber (s : List Char) : PortError
deriving DecidableEq

inductive VResult where
  | ok : VResult
  | err (e : PortError) : VResult
deriving DecidableEq

/-- The inner bound loop: `in_host_range` starts `false` for each
colon-position and is set to `true` after the first `-`-separated bound,
exactly as in the source (the flag lives inside the per-position loop). -/
def checkBounds : Bool → List (List Char) → VResult
  | _, [] => .ok
  | inHostRange, b :: rest =>
    match parseU16 b with
    | some v =>
      if inHostRange ∧ v < 1024 then .err (.privilegedPort v)
      else checkBounds true rest
    | none => .err (.notANumber b)

/-- One colon-position: split on `-`, at most two range bounds, then the
bound loop with `in_host_range` initialised to `false`. -/
def checkPosition (pos : List Char) : VResult :=
  let segs := splitOnChar '-' pos
  if segs.length > 2 then .err .tooManyRangeSegments
  else checkBounds false segs

def checkPositions : List (List Char) → VResult
  | [] => .ok
  | p :: rest =>
    match checkPosition p with
    | .ok => checkPositions rest
    | .err e => .err e

/-- Validation of one port specification string, translated from the
`// Ports` block of `open_validate_addons_file`. Note that when a `/`
protocol suffix is present the source rebinds `port` to `*protocol`
(the text after the `/`), not to the text before it; the `.ok protocol`
branch reproduces that rebinding. -/
def validatePort (port : String) : VResult :=
  let parts := splitOnChar '/' port.data
  let tokenRes : Except PortError (List Char) :=
    match parts[1]? with
    | some protocol =>
      if protocol ≠ "udp".data ∧ protocol ≠ "tcp".data then .error .protocolNotTcpUdp
      else .ok protocol
    | none => .ok port.data
  match tokenRes with
  | .error e => .err e
  | .ok tok =>
    let positions := splitOnChar ':' tok
    if positions.length > 2 then .err .tooManyColonSegments
    else checkPositions positions

/-- C1: evaluation of the port validator at the claim's stated examples.
Contrary to the claim, `"80:8080"` is accepted (the `in_host_range` flag is
reset per colon-position and only becomes true after a position's first
`-`-bound, so no bound of the host position is ever checked), and a bound
below 1024 in the container-side position is rejected when it is the second
bound of a range, as in `"8080:80-90"`. `"8080:80"` and `"22"` are accepted
as the claim states. -/
theorem c1_port_examples_eval :
    validatePort "80:8080" = .ok ∧
    validatePort "8080:80" = .ok ∧
    validatePort "22" = .ok ∧
    validatePort "8080:80-90" = .err (.privilegedPort 90) := by decide

/-- C2: evaluation of the port validator at `"6060:6060/udp"`, the example
given in the source comment. Contrary to the claim, the code rebinds the
port token to the protocol suffix itself, so validation tries to parse
`"udp"` as a port number and rejects the specification; the same mapping
without a suffix is accepted. -/
theorem c2_protocol_suffix_eval :
    validatePort "6060:6060/udp" = .err (.notANumber "udp".data) ∧
    validatePort "6060:6060" = .ok := by decide

/-! ## Login (src/login.rs, `perform_login`)

The function is parametrised over the outcomes of its I/O actions: the
cached session file's parse result, each HTTP exchange (`none` models a
transport error, otherwise a status code plus the parses the source
applies to the body), the clock readings the source takes, and the
session-file write. -/

structure UserSession where
  refresh_token : Option String
  access_token : String
  access_token_expires : Int
  user_id : String
  user_email : String
  user_display_name : String
deriving DecidableEq

structure OAuthTokenResponse where
  access_token : String
  token_type : String
  expires_in : Int
  refresh_token : Option String
  scope : String
deriving DecidableEq

/-- One HTTP exchange that produced a response: its status, the body parsed
as an `OAuthTokenResponse` (consulted on 200), and the body parsed as an
`ErrorResult` (its `error` field, consulted on 400). -/
structure HttpResponse where
  status : Nat
  tokenBody : OAuthTokenResponse
  errorBody : String
deriving DecidableEq

inductive RefreshOutcome where
  | fatal : RefreshOutcome
  | fallThrough : RefreshOutcome
  | refreshed (s : UserSession) : RefreshOutcome
deriving DecidableEq

/-- The silent-refresh step of `perform_login` (src/login.rs lines 94-137):
no cached refresh token or a 400 fall through to the device flow, a
transport error or any other non-200 aborts the login, and a 200 builds the
new session in place, copying the identity fields and the refresh token
from the cached session. -/
def refreshStep (cached : UserSession) (now : Int) (r : Option HttpResponse) :
    RefreshOutcome :=
  match cached.refresh_token with
  | none => .fallThrough
  | some _ =>
    match r with
    | none => .fatal
    | some r =>
      if r.status = 400 then .fallThrough
      else if r.status = 200 then
        .refreshed
          { refresh_token := cached.refresh_token
            access_token := r.tokenBody.access_token
            access_token_expires := now + r.tokenBody.expires_in - 10
            user_id := cached.user_id
            user_email := cached.user_email
            user_display_name := cached.user_display_name }
      else .fatal

structure DeviceFlowResponse where
  device_code : String
  user_code : String
  verification_uri : String
  interval : Nat
  expires_in : Int
deriving DecidableEq

inductive PollStep where
  | again : PollStep
  | success (tok : OAuthTokenResponse) : PollStep
  | denied (e : String) : PollStep
  | otherErr : PollStep
  | timeout : PollStep
  | fatal : PollStep
deriving DecidableEq

/-- One iteration of the device-flow polling loop (src/login.rs lines
192-232). `diff` is `expires_in - now` as computed at the top of the
iteration. A transport error returns from `perform_login` (`fatal`); a 200
breaks with the token; a 400 whose error is not `authorization_pending`
breaks with that error; any other status breaks with no token; only the
`authorization_pending` case reaches the expiry check at the bottom of the
loop. -/
def pollStep (diff : Int) (r : Option HttpResponse) : PollStep :=
  match r with
  | none => .fatal
  | some r =>
    if r.status = 200 then .success r.tokenBody
    else if r.status = 400 then
      if r.errorBody ≠ "authorization_pending" then .denied r.errorBody
      else if diff < 0 then .timeout
      else .again
    else .otherErr

/-- The polling loop over a finite trace of iterations, each with the clock
reading taken at its start and the poll exchange's outcome; `none` means
the trace ended with the loop still polling. -/
def pollLoop (expiresAt : Int) : List (Int × Option HttpResponse) → Option PollStep
  | [] => none
  | (now, r) :: rest =>
    match pollStep (expiresAt - now) r with
    | .again => pollLoop expiresAt rest
    | s => some s

structure FirebaseAuthUser where
  localId : Option String
  email : Option String
  displayName : Option String
deriving DecidableEq

inductive UserinfoResult where
  | netErr : UserinfoResult
  | parseErr : UserinfoResult
  | ok (u : FirebaseAuthUser) : UserinfoResult
deriving DecidableEq

inductive FileWriteResult where
  | ok : FileWriteResult
  | failed : FileWriteResult
deriving DecidableEq

/-- The session assembled at the end of the device flow (src/login.rs lines
259-266). -/
def mkDeviceSession (now : Int) (tok : OAuthTokenResponse)
    (u : FirebaseAuthUser) : UserSession :=
  { refresh_token := tok.refresh_token
    access_token := tok.access_token
    access_token_expires := now + tok.expires_in - 10
    user_id := u.localId.getD ""
    user_email := u.email.getD ""
    user_display_name := u.displayName.getD "" }

/-- Environment of one device-flow run: the clock at its start, the
authorize exchange and its parsed 200 body, the polling trace, the clock at
session assembly, the userinfo exchange, and the session-file creation. -/
structure DF where
  startNow : Int
  authResp : Option HttpResponse
  authBody : DeviceFlowResponse
  polls : List (Int × Option HttpResponse)
  tokenNow : Int
  uinfo : UserinfoResult
  fileWrite : FileWriteResult
deriving DecidableEq

/-- The result of `perform_login` together with whether the session file
was written during the run (the only `File::create` of the session file in
the source sits in the device-flow branch). -/
structure LoginEffects where
  result : Option UserSession
  sessionFileWritten : Bool
deriving DecidableEq

/-- The device-flow branch of `perform_login` (src/login.rs lines 139-279):
authorize must answer 200; the polling loop must break with a token; the
userinfo exchange must reach and parse; then the session is assembled,
written to the session file, and returned (a failed `File::create` aborts
with no session). -/
def deviceFlowRun (df : DF) : LoginEffects :=
  match df.authResp with
  | none => ⟨none, false⟩
  | some r =>
    if r.status ≠ 200 then ⟨none, false⟩
    else
      match pollLoop (df.startNow + df.authBody.expires_in) df.polls with
      | some (.success tok) =>
        match df.uinfo with
        | .ok u =>
          match df.fileWrite with
          | .ok => ⟨some (mkDeviceSession df.tokenNow tok u), true⟩
          | .failed => ⟨none, false⟩
        | _ => ⟨none, false⟩
      | _ => ⟨none, false⟩

/-- `perform_login`: the cached-session refresh step, falling through to
the device flow when it yields no session. A session produced by the
refresh step is returned directly, without touching the session file. -/
def performLogin (cached : Option UserSession) (now : Int)
    (refreshResp : Option HttpResponse) (df : DF) : LoginEffects :=
  let afterRefresh : RefreshOutcome :=
    match cached with
    | none => .fallThrough
    | some s => refreshStep s now refreshResp
  match afterRefresh with
  | .fatal => ⟨none, false⟩
  | .refreshed s => ⟨some s, false⟩
  | .fallThrough => deviceFlowRun df

/-- C3: with a cached refresh token, a transport error is fatal; a 400
falls through to the device flow; any other non-200 is fatal; a 200 yields
a session that keeps the cached identity fields and refresh token, with
the new access token and expiry `now + expires_in - 10`. -/
theorem c3_refresh_dispatch (cached : UserSession) (tok : String) (now : Int)
    (r : HttpResponse) (hrt : cached.refresh_token = some tok) :
    (refreshStep cached now none = .fatal) ∧
    (r.status = 400 → refreshStep cached now (some r) = .fallThrough) ∧
    (r.status ≠ 400 → r.status ≠ 200 → refreshStep cached now (some r) = .fatal) ∧
    (r.status = 200 → refreshStep cached now (some r) = .refreshed
      { refresh_token := cached.refresh_token
        access_token := r.tokenBody.access_token
        access_token_expires := now + r.tokenBody.expires_in - 10
        user_id := cached.user_id
        user_email := cached.user_email
        user_display_name := cached.user_display_name }) := by
  refine ⟨?_, ?_, ?_, ?_⟩
  · simp [refreshStep, hrt]
  · intro h; simp [refreshStep, hrt, h]
  · intro h1 h2; simp [refreshStep, hrt, h1, h2]
  · intro h; simp [refreshStep, hrt, h]

/-- Witness for C3 at a concrete cached session and a concrete 200
response. -/
theorem c3_refresh_dispatch_witness :
    refreshStep ⟨some "r0", "old", 0, "u0", "e0", "n0"⟩ 1000
        (some ⟨200, ⟨"new", "bearer", 3600, some "r0", "s"⟩, "err"⟩)
      = .refreshed ⟨some "r0", "new", 1000 + 3600 - 10, "u0", "e0", "n0"⟩ :=
  (c3_refresh_dispatch ⟨some "r0", "old", 0, "u0", "e0", "n0"⟩ "r0" 1000
    ⟨200, ⟨"new", "bearer", 3600, some "r0", "s"⟩, "err"⟩ rfl).2.2.2 rfl

/-- C5: a 200 breaks the polling loop with the token at once; a 400 with an
error other than `authorization_pending` breaks with that error at once;
any other status breaks with no token; on `authorization_pending` the loop
keeps polling while the deadline has not passed and breaks with the timeout
error once `diff < 0`, i.e. once the elapsed time exceeds the device code's
declared lifetime. -/
theorem c5_poll_loop (diff : Int) (r : HttpResponse) (expiresAt now : Int)
    (rest : List (Int × Option HttpResponse)) (x : Option HttpResponse) :
    (r.status = 200 → pollStep diff (some r) = .success r.tokenBody) ∧
    (r.status = 400 → r.errorBody ≠ "authorization_pending" →
      pollStep diff (some r) = .denied r.errorBody) ∧
    (r.status ≠ 200 → r.status ≠ 400 → pollStep diff (some r) = .otherErr) ∧
    (r.status = 400 → r.errorBody = "authorization_pending" → 0 ≤ diff →
      pollStep diff (some r) = .again) ∧
    (r.status = 400 → r.errorBody = "authorization_pending" → diff < 0 →
      pollStep diff (some r) = .timeout) ∧
    (pollStep (expiresAt - now) x = .again →
      pollLoop expiresAt ((now, x) :: rest) = pollLoop expiresAt rest) ∧
    (∀ s, pollStep (expiresAt - now) x = s → s ≠ .again →
      pollLoop expiresAt ((now, x) :: rest) = some s) := by
  refine ⟨?_, ?_, ?_, ?_, ?_, ?_, ?_⟩
  · intro h; simp [pollStep, h]
  · intro h1 h2; simp [pollStep, h1, h2]
  · intro h1 h2; simp [pollStep, h1, h2]
  · intro h1 h2 h3; simp [pollStep, h1, h2, Int.not_lt.mpr h3]
  · intro h1 h2 h3; simp [pollStep, h1, h2, h3]
  · intro h; simp [pollLoop, h]
  · intro s hs hne
    cases s <;> simp [pollLoop, hs] <;> simp_all

/-- Witness for C5 at concrete responses and times. -/
theorem c5_poll_loop_witness :
    pollStep 5 (some ⟨200, ⟨"t", "bearer", 60, none, "s"⟩, "e"⟩)
      = .success ⟨"t", "bearer", 60, none, "s"⟩ ∧
    pollStep 5 (some ⟨400, ⟨"t", "bearer", 60, none, "s"⟩, "access_denied"⟩)
      = .denied "access_denied" ∧
    pollStep 5 (some ⟨400, ⟨"t", "bearer", 60, none, "s"⟩, "authorization_pending"⟩)
      = .again ∧
    pollStep (-1) (some ⟨400, ⟨"t", "bearer", 60, none, "s"⟩, "authorization_pending"⟩)
      = .timeout := by
  have h1 := (c5_poll_loop 5 ⟨200, ⟨"t", "bearer", 60, none, "s"⟩, "e"⟩ 0 0 [] none).1 rfl
  have h2 := (c5_poll_loop 5 ⟨400, ⟨"t", "bearer", 60, none, "s"⟩, "access_denied"⟩
    0 0 [] none).2.1 rfl (by decide)
  have h3 := (c5_poll_loop 5 ⟨400, ⟨"t", "bearer", 60, none, "s"⟩, "authorization_pending"⟩
    0 0 [] none).2.2.2.1 rfl rfl (by decide)
  have h4 := (c5_poll_loop (-1) ⟨400, ⟨"t", "bearer", 60, none, "s"⟩, "authorization_pending"⟩
    0 0 [] none).2.2.2.2.1 rfl rfl (by decide)
  exact ⟨h1, h2, h3, h4⟩

/-- C4 counterexample: a run of `perform_login` in which the silent refresh
succeeds (cached session with refresh token, 200 from the token endpoint)
returns a session although the session file was not written — the source
only writes the file in the device-flow branch. -/
theorem c4_counterexample :
    (performLogin (some ⟨some "r0", "old", 0, "u0", "e0", "n0"⟩) 1000
        (some ⟨200, ⟨"new", "bearer", 3600, some "r0", "s"⟩, "err"⟩)
        ⟨0, none, ⟨"d", "u", "v", 5, 900⟩, [], 0, .netErr, .failed⟩).result
      = some ⟨some "r0", "new", 1000 + 3600 - 10, "u0", "e0", "n0"⟩ ∧
    (performLogin (some ⟨some "r0", "old", 0, "u0", "e0", "n0"⟩) 1000
        (some ⟨200, ⟨"new", "bearer", 3600, some "r0", "s"⟩, "err"⟩)
        ⟨0, none, ⟨"d", "u", "v", 5, 900⟩, [], 0, .netErr, .failed⟩).sessionFileWritten
      = false := by decide

/-- C4 as amended: the session file is written exactly on a completed
device-authorization flow (within the device-flow branch, the file is
written if and only if a session is returned), while a session produced by
the silent refresh is returned without writing the session file. -/
theorem c4_session_write_amended (cs : UserSession) (now : Int)
    (rr : Option HttpResponse) (df : DF) :
    ((deviceFlowRun df).sessionFileWritten = (deviceFlowRun df).result.isSome) ∧
    (∀ s, refreshStep cs now rr = .refreshed s →
      performLogin (some cs) now rr df = ⟨some s, false⟩) := by
  constructor
  · unfold deviceFlowRun
    rcases df.authResp with _ | r
    · rfl
    · by_cases h : r.status = 200
      · simp only [h]
        rcases pollLoop (df.startNow + df.authBody.expires_in) df.polls with _ | s
        · simp
        · cases s <;> simp <;> rcases df.uinfo with _ | _ | u <;> simp <;>
            rcases df.fileWrite with _ | _ <;> simp
      · simp [h]
  · intro s h
    simp [performLogin, h]

/-- Witness for C4's amended statement at a concrete refresh-success run. -/
theorem c4_session_write_amended_witness :
    performLogin (some ⟨some "r0", "old", 0, "u0", "e0", "n0"⟩) 1000
        (some ⟨200, ⟨"new", "bearer", 3600, some "r0", "s"⟩, "err"⟩)
        ⟨0, none, ⟨"d", "u", "v", 5, 900⟩, [], 0, .netErr, .failed⟩
      = ⟨some ⟨some "r0", "new", 1000 + 3600 - 10, "u0", "e0", "n0"⟩, false⟩ :=
  (c4_session_write_amended ⟨some "r0", "old", 0, "u0", "e0", "n0"⟩ 1000
      (some ⟨200, ⟨"new", "bearer", 3600, some "r0", "s"⟩, "err"⟩)
      ⟨0, none, ⟨"d", "u", "v", 5, 900⟩, [], 0, .netErr, .failed⟩).2
    ⟨some "r0", "new", 1000 + 3600 - 10, "u0", "e0", "n0"⟩ (by decide)

/-! ## Build/push orchestration (src/docker_registry.rs) -/

/-- `BuildInstruction` (src/dto/mod.rs): one discovered build-file /
architecture pair with its mutable outcome fields. -/
structure BuildInstruction where
  filename : String
  arch : String
  image_name : String
  build : Bool
  uploaded : Bool
  image_size : Int
deriving DecidableEq

/-- Outcome of the external tools for one target of `build_images`: the
build child's exit success, and the byte count delivered by the best-effort
`image inspect` step (`none` when the inspect command or the parse of its
output failed). -/
structure BuildOutcome where
  exitSuccess : Bool
  inspectSize : Option Int
deriving DecidableEq

/-- One iteration of the `build_images` loop (src/docker_registry.rs lines
51-98): `build` is set to the exit success, then the inspect step updates
`image_size` only when it succeeded, leaving the previous value otherwise. -/
def buildOne (t : BuildInstruction) (o : BuildOutcome) : BuildInstruction :=
  let t := { t with build := o.exitSuccess }
  match o.inspectSize with
  | some s => { t with image_size := s }
  | none => t

/-- `build_images`: the targets are processed in order, the i-th with the
i-th tool outcome; no iteration returns early, so every target is
attempted. -/
def buildImages : List BuildInstruction → List BuildOutcome → List BuildInstruction
  | [], _ => []
  | _ :: _, [] => []
  | t :: ts, o :: os => buildOne t o :: buildImages ts os

/-- `upload_images` (src/docker_registry.rs lines 112-145), paired with the
trace of image names for which the push tool was invoked: a target with
`build == false` is passed over unchanged with no invocation; otherwise the
tool runs and `uploaded` is set to its exit success. -/
def uploadImages : List BuildInstruction → List Bool → List BuildInstruction × List String
  | [], _ => ([], [])
  | _ :: _, [] => ([], [])
  | t :: ts, o :: os =>
    if t.build then
      ({ t with uploaded := o } :: (uploadImages ts os).1,
       t.image_name :: (uploadImages ts os).2)
    else
      (t :: (uploadImages ts os).1, (uploadImages ts os).2)

theorem buildOne_spec (t : BuildInstruction) (o : BuildOutcome) :
    (buildOne t o).build = o.exitSuccess ∧
    (buildOne t o).image_size = o.inspectSize.getD t.image_size ∧
    (buildOne t o).uploaded = t.uploaded ∧
    (buildOne t o).arch = t.arch := by
  cases h : o.inspectSize <;> simp [buildOne, h]

theorem buildImages_length (ts : List BuildInstruction) (os : List BuildOutcome)
    (h : ts.length = os.length) : (buildImages ts os).length = ts.length := by
  induction ts generalizing os with
  | nil => simp [buildImages]
  | cons t ts ih =>
    cases os with
    | nil => simp at h
    | cons o os => simp only [buildImages, List.length_cons]; rw [ih]; simp at h; omega

theorem buildImages_get (ts : List BuildInstruction) (os : List BuildOutcome)
    (i : Nat) (hi : i < ts.length) (ho : i < os.length)
    (hr : i < (buildImages ts os).length) :
    (buildImages ts os).get ⟨i, hr⟩ = buildOne (ts.get ⟨i, hi⟩) (os.get ⟨i, ho⟩) := by
  induction ts generalizing os i with
  | nil => simp at hi
  | cons t ts ih =>
    cases os with
    | nil => simp at ho
    | cons o os =>
      cases i with
      | zero => rfl
      | succ n =>
        simp only [buildImages, List.get_cons_succ]
        exact ih os n (by simpa using hi) (by simpa using ho) (by simpa [buildImages] using hr)

/-- C6: with one tool outcome per target, every target in the list is
attempted (`buildImages` never stops early, so the result is as long as the
input), the i-th result's `build` flag equals exactly the i-th build's exit
success, and its `image_size` is the inspect result when the inspect step
succeeded and the previous value (the default 0 at creation) otherwise; the
`uploaded` flag is untouched by this stage. -/
theorem c6_build_images (ts : List BuildInstruction) (os : List BuildOutcome)
    (h : ts.length = os.length) :
    (buildImages ts os).length = ts.length ∧
    (∀ i, (hi : i < ts.length) → (ho : i < os.length) →
      (hr : i < (buildImages ts os).length) →
      ((buildImages ts os).get ⟨i, hr⟩).build = (os.get ⟨i, ho⟩).exitSuccess ∧
      ((buildImages ts os).get ⟨i, hr⟩).image_size =
        ((os.get ⟨i, ho⟩).inspectSize.getD ((ts.get ⟨i, hi⟩).image_size)) ∧
      ((buildImages ts os).get ⟨i, hr⟩).uploaded = (ts.get ⟨i, hi⟩).uploaded ∧
      ((buildImages ts os).get ⟨i, hr⟩).arch = (ts.get ⟨i, hi⟩).arch) := by
  refine ⟨buildImages_length ts os h, ?_⟩
  intro i hi ho hr
  rw [buildImages_get ts os i hi ho hr]
  exact buildOne_spec _ _

/-- Witness for C6: two targets, the first build succeeding with a
successful inspect, the second failing with a failed inspect. -/
theorem c6_build_images_witness :
    ([⟨"Dockerfile", "amd64", "img-amd64", false, false, 0⟩,
      ⟨"Dockerfile.aarch64", "aarch64", "img-aarch64", false, false, 0⟩] :
        List BuildInstruction).length =
      ([⟨true, some 104857600⟩, ⟨false, none⟩] : List BuildOutcome).length ∧
    ((buildImages
        [⟨"Dockerfile", "amd64", "img-amd64", false, false, 0⟩,
         ⟨"Dockerfile.aarch64", "aarch64", "img-aarch64", false, false, 0⟩]
        [⟨true, some 104857600⟩, ⟨false, none⟩]).length = 2 ∧
      (∀ i, (hi : i < ([⟨"Dockerfile", "amd64", "img-amd64", false, false, 0⟩,
         ⟨"Dockerfile.aarch64", "aarch64", "img-aarch64", false, false, 0⟩] :
           List BuildInstruction).length) →
        (ho : i < ([⟨true, some 104857600⟩, ⟨false, none⟩] :
           List BuildOutcome).length) →
        (hr : i < (buildImages
          [⟨"Dockerfile", "amd64", "img-amd64", false, false, 0⟩,
           ⟨"Dockerfile.aarch64", "aarch64", "img-aarch64", false, false, 0⟩]
          [⟨true, some 104857600⟩, ⟨false, none⟩]).length) →
        ((buildImages
          [⟨"Dockerfile", "amd64", "img-amd64", false, false, 0⟩,
           ⟨"Dockerfile.aarch64", "aarch64", "img-aarch64", false, false, 0⟩]
          [⟨true, some 104857600⟩, ⟨false, none⟩]).get ⟨i, hr⟩).build =
          (([⟨true, some 104857600⟩, ⟨false, none⟩] :
            List BuildOutcome).get ⟨i, ho⟩).exitSuccess ∧
        ((buildImages
          [⟨"Dockerfile", "amd64", "img-amd64", false, false, 0⟩,
           ⟨"Dockerfile.aarch64", "aarch64", "img-aarch64", false, false, 0⟩]
          [⟨true, some 104857600⟩, ⟨false, none⟩]).get ⟨i, hr⟩).image_size =
          ((([⟨true, some 104857600⟩, ⟨false, none⟩] :
            List BuildOutcome).get ⟨i, ho⟩).inspectSize.getD
            ((([⟨"Dockerfile", "amd64", "img-amd64", false, false, 0⟩,
              ⟨"Dockerfile.aarch64", "aarch64", "img-aarch64", false, false, 0⟩] :
              List BuildInstruction).get ⟨i, hi⟩).image_size)) ∧
        ((buildImages
          [⟨"Dockerfile", "amd64", "img-amd64", false, false, 0⟩,
           ⟨"Dockerfile.aarch64", "aarch64", "img-aarch64", false, false, 0⟩]
          [⟨true, some 104857600⟩, ⟨false, none⟩]).get ⟨i, hr⟩).uploaded =
          (([⟨"Dockerfile", "amd64", "img-amd64", false, false, 0⟩,
            ⟨"Dockerfile.aarch64", "aarch64", "img-aarch64", false, false, 0⟩] :
            List BuildInstruction).get ⟨i, hi⟩).uploaded ∧
        ((buildImages
          [⟨"Dockerfile", "amd64", "img-amd64", false, false, 0⟩,
           ⟨"Dockerfile.aarch64", "aarch64", "img-aarch64", false, false, 0⟩]
          [⟨true, some 104857600⟩, ⟨false, none⟩]).get ⟨i, hr⟩).arch =
          (([⟨"Dockerfile", "amd64", "img-amd64", false, false, 0⟩,
            ⟨"Dockerfile.aarch64", "aarch64", "img-aarch64", false, false, 0⟩] :
            List BuildInstruction).get ⟨i, hi⟩).arch)) :=
  ⟨rfl, c6_build_images
    [⟨"Dockerfile", "amd64", "img-amd64", false, false, 0⟩,
     ⟨"Dockerfile.aarch64", "aarch64", "img-aarch64", false, false, 0⟩]
    [⟨true, some 104857600⟩, ⟨false, none⟩] rfl⟩

theorem uploadImages_fst_length (ts : List BuildInstruction) (os : List Bool)
    (h : ts.length = os.length) : (uploadImages ts os).1.length = ts.length := by
  induction ts generalizing os with
  | nil => simp [uploadImages]
  | cons t ts ih =>
    cases os with
    | nil => simp at h
    | cons o os =>
      simp at h
      cases hb : t.build <;> simp [uploadImages, hb, ih os h]

theorem uploadImages_get (ts : List BuildInstruction) (os : List Bool)
    (i : Nat) (hi : i < ts.length) (ho : i < os.length)
    (hr : i < (uploadImages ts os).1.length) :
    (uploadImages ts os).1.get ⟨i, hr⟩ =
      (if (ts.get ⟨i, hi⟩).build then { ts.get ⟨i, hi⟩ with uploaded := os.get ⟨i, ho⟩ }
       else ts.get ⟨i, hi⟩) := by
  induction ts generalizing os i with
  | nil => simp at hi
  | cons t ts ih =>
    cases os with
    | nil => simp at ho
    | cons o os =>
      cases i with
      | zero => cases hb : t.build <;> simp [uploadImages, hb]
      | succ n =>
        have hi' : n < ts.length := by simpa using hi
        have ho' : n < os.length := by simpa using ho
        have hr' : n < (uploadImages ts os).1.length := by
          cases hb : t.build <;> simpa [uploadImages, hb] using hr
        have step : (uploadImages (t :: ts) (o :: os)).1.get ⟨n + 1, hr⟩ =
            (uploadImages ts os).1.get ⟨n, hr'⟩ := by
          cases hb : t.build <;> simp [uploadImages, hb]
        rw [step, ih os n hi' ho' hr']
        simp

theorem uploadImages_snd (ts : List BuildInstruction) (os : List Bool)
    (h : ts.length = os.length) :
    (uploadImages ts os).2 =
      (ts.filter (fun t => t.build)).map (fun t => t.image_name) := by
  induction ts generalizing os with
  | nil => simp [uploadImages]
  | cons t ts ih =>
    cases os with
    | nil => simp at h
    | cons o os =>
      simp at h
      cases hb : t.build <;> simp [uploadImages, hb, List.filter_cons, ih os h]

theorem uploadImages_uploaded_implies_built (ts : List BuildInstruction)
    (os : List Bool) (hpre : ∀ t ∈ ts, t.uploaded = false) :
    ∀ r ∈ (uploadImages ts os).1, r.uploaded = true → r.build = true := by
  induction ts generalizing os with
  | nil => intro r hr; simp [uploadImages] at hr
  | cons t ts ih =>
    cases os with
    | nil => intro r hr; simp [uploadImages] at hr
    | cons o os =>
      intro r hr hup
      have hpre' : ∀ u ∈ ts, u.uploaded = false := fun u hu => hpre u (by simp [hu])
      cases hb : t.build with
      | true =>
        simp [uploadImages, hb] at hr
        rcases hr with hr | hr
        · simp [hr, hb]
        · exact ih os hpre' r hr hup
      | false =>
        simp [uploadImages, hb] at hr
        rcases hr with hr | hr
        · exfalso
          have := hpre t (by simp)
          rw [hr] at hup
          rw [hup] at this
          exact Bool.true_eq_false.mp this
        · exact ih os hpre' r hr hup

/-- C7: `upload_images` invokes the push tool exactly for the targets whose
`build` flag is true (the invocation trace is the built targets' image
names, in order); every target survives to the result, where a built
target's `uploaded` flag is set to the push exit status and an unbuilt
target is passed through unchanged; hence, starting from the
all-`uploaded = false` state the targets are created in, `uploaded` implies
`build` for every target after the stage. -/
theorem c7_upload_images (ts : List BuildInstruction) (os : List Bool)
    (h : ts.length = os.length) (hpre : ∀ t ∈ ts, t.uploaded = false) :
    ((uploadImages ts os).2 =
      (ts.filter (fun t => t.build)).map (fun t => t.image_name)) ∧
    ((uploadImages ts os).1.length = ts.length) ∧
    (∀ i, (hi : i < ts.length) → (ho : i < os.length) →
      (hr : i < (uploadImages ts os).1.length) →
      (uploadImages ts os).1.get ⟨i, hr⟩ =
        (if (ts.get ⟨i, hi⟩).build then { ts.get ⟨i, hi⟩ with uploaded := os.get ⟨i, ho⟩ }
         else ts.get ⟨i, hi⟩)) ∧
    (∀ r ∈ (uploadImages ts os).1, r.uploaded = true → r.build = true) :=
  ⟨uploadImages_snd ts os h, uploadImages_fst_length ts os h,
   fun i hi ho hr => uploadImages_get ts os i hi ho hr,
   uploadImages_uploaded_implies_built ts os hpre⟩

/-- Concrete targets after a build stage in which only the first succeeded,
used by the C7 witness. -/
def upTs : List BuildInstruction :=
  [⟨"Dockerfile", "amd64", "img-amd64", true, false, 100⟩,
   ⟨"Dockerfile.aarch64", "aarch64", "img-aarch64", false, false, 0⟩]

def upOs : List Bool := [true, true]

/-- Witness for C7 at the concrete `upTs`/`upOs`. -/
theorem c7_upload_images_witness :
    upTs.length = upOs.length ∧ (∀ t ∈ upTs, t.uploaded = false) ∧
    (((uploadImages upTs upOs).2 =
      (upTs.filter (fun t => t.build)).map (fun t => t.image_name)) ∧
    ((uploadImages upTs upOs).1.length = upTs.length) ∧
    (∀ i, (hi : i < upTs.length) → (ho : i < upOs.length) →
      (hr : i < (uploadImages upTs upOs).1.length) →
      (uploadImages upTs upOs).1.get ⟨i, hr⟩ =
        (if (upTs.get ⟨i, hi⟩).build then
          { upTs.get ⟨i, hi⟩ with uploaded := upOs.get ⟨i, ho⟩ }
         else upTs.get ⟨i, hi⟩)) ∧
    (∀ r ∈ (uploadImages upTs upOs).1, r.uploaded = true → r.build = true)) :=
  ⟨rfl, by decide, c7_upload_images upTs upOs rfl (by decide)⟩

/-! ## Data model (src/dto/addons.rs) -/

inductive StatusCode where
  | AVAILABLE : StatusCode
  | REPLACED : StatusCode
  | REMOVED : StatusCode
  | UNMAINTAINED : StatusCode
deriving DecidableEq

structure Status where
  code : StatusCode
  description : Option String
  descriptions : Option (List (String × String))
deriving DecidableEq

structure AddonEntryCommon where
  title : String
  titles : Option (List (String × String))
  description : String
  descriptions : Option (List (String × String))
  authors : List String
  manufacturers : List String
  products : List String
  homepage : Option String
  license : String
  github : Option String
  changelog_url : Option String
  type_field : String
  id : String
  version : String
  status : Status
deriving DecidableEq

structure AddonRegistryEntry where
  entry : AddonEntryCommon
  owner : String
  last_updated : Int
deriving DecidableEq

abbrev AddonEntryMap := List (String × AddonRegistryEntry)

structure BuildContext where
  context : String
deriving DecidableEq

structure Permissions where
  mandatory : List String
  optional : List String
deriving DecidableEq

structure AddonService where
  ports : Option (List String)
  firewall_allow : Option (List String)
  cap_add : Option (List String)
  cap_drop : Option (List String)
  devices : Option (List String)
  pid : Option String
  ipc : Option String
  permissions : Option Permissions
  image : Option String
  build : Option BuildContext
  depends_on : Option (List String)
  volumes : Option (List String)
deriving DecidableEq

structure AddonRuntimeRequirements where
  memory_min : Int
  memory_max : Int
deriving DecidableEq

structure AddonFileEntry where
  services : List (String × AddonService)
  x_ohx_registry : AddonEntryCommon
  x_runtime : AddonRuntimeRequirements
deriving DecidableEq

structure AddonFileEntryPlusStats where
  services : List (String × AddonService)
  x_ohx_registry : AddonEntryCommon
  x_runtime : AddonRuntimeRequirements
  archs : List String
  size : Int
deriving DecidableEq

/-! ## Registry cache (src/registry.rs, `addon_registry`)

Parametrised over the cache file's age in seconds (`none` when the file or
its mtime is unavailable), the result of reading and deserialising the
cache file (`none` on any read or parse failure), and the live fetch's
result (`none` on a network failure). The second component of the result
is the content written back to the cache file, `none` when the file is not
touched. -/

def addonRegistry (cacheAge : Option Nat) (cacheRead : Option AddonEntryMap)
    (fetch : Option AddonEntryMap) : Option AddonEntryMap × Option AddonEntryMap :=
  let registry_content : Option AddonEntryMap :=
    match cacheAge with
    | some d => if d < 500 then cacheRead else none
    | none => none
  match registry_content with
  | some v => (some v, none)
  | none =>
    match fetch with
    | some v => (some v, some v)
    | none => (none, none)

/-- C8: the cached snapshot is returned (with no fetch and no write back)
exactly when the cache file's age is under 500 seconds and its content
deserialises; in every other case — missing mtime, stale file, or a
read/parse failure — the live fetch's content is written to the cache file
and returned, and only a live-fetch failure makes the stage return
nothing. -/
theorem c8_registry_cache (cacheAge : Option Nat)
    (cacheRead fetch : Option AddonEntryMap) :
    (∀ d v, cacheAge = some d → d < 500 → cacheRead = some v →
      addonRegistry cacheAge cacheRead fetch = (some v, none)) ∧
    ((cacheAge = none ∨ (∃ d, cacheAge = some d ∧ 500 ≤ d) ∨ cacheRead = none) →
      (∀ v, fetch = some v →
        addonRegistry cacheAge cacheRead fetch = (some v, some v)) ∧
      (fetch = none → addonRegistry cacheAge cacheRead fetch = (none, none))) := by
  constructor
  · intro d v h1 h2 h3
    simp [addonRegistry, h1, h2, h3]
  · intro hmiss
    rcases hmiss with h | ⟨d, hd, hge⟩ | h
    · subst h
      exact ⟨fun v hv => by simp [addonRegistry, hv],
             fun hv => by simp [addonRegistry, hv]⟩
    · subst hd
      exact ⟨fun v hv => by simp [addonRegistry, Nat.not_lt.mpr hge, hv],
             fun hv => by simp [addonRegistry, Nat.not_lt.mpr hge, hv]⟩
    · subst h
      rcases cacheAge with _ | d
      · exact ⟨fun v hv => by simp [addonRegistry, hv],
               fun hv => by simp [addonRegistry, hv]⟩
      · exact ⟨fun v hv => by simp [addonRegistry, hv],
               fun hv => by simp [addonRegistry, hv]⟩

/-- Witness for C8: a fresh parse-able cache is returned as-is; a stale
cache triggers the live fetch whose content is written back. -/
theorem c8_registry_cache_witness :
    addonRegistry (some 10) (some ([] : AddonEntryMap)) none =
      (some ([] : AddonEntryMap), none) ∧
    addonRegistry (some 600) (some ([] : AddonEntryMap)) (some ([] : AddonEntryMap)) =
      (some ([] : AddonEntryMap), some ([] : AddonEntryMap)) :=
  ⟨(c8_registry_cache (some 10) (some ([] : AddonEntryMap)) none).1 10
      ([] : AddonEntryMap) rfl (by decide) rfl,
   ((c8_registry_cache (some 600) (some ([] : AddonEntryMap))
      (some ([] : AddonEntryMap))).2 (Or.inr (Or.inl ⟨600, rfl, by decide⟩))).1
      ([] : AddonEntryMap) rfl⟩

/-! ## Publish (src/registry.rs, `post_to_registry`) -/

/-- Rust `i64` division: truncation toward zero; dividing by zero panics,
modelled as `none`. -/
def rustDivI64 (a b : Int) : Option Int :=
  if b = 0 then none else some (Int.tdiv a b)

/-- The remote tag `docker.io/openhabx/{id}:{version}` substituted for
local build contexts. -/
def publishedImageTag (input : AddonFileEntry) : String :=
  "docker.io/openhabx/" ++ input.x_ohx_registry.id ++ ":" ++
    input.x_ohx_registry.version

/-- The per-service rewrite of `post_to_registry`: services without a
`build` context are left alone; a service with one has it removed and its
`image` set to the remote tag. -/
def stripService (tag : String) (s : AddonService) : AddonService :=
  if s.build = none then s
  else { s with build := none, image := some tag }

/-- The record assembled by `post_to_registry` (src/registry.rs lines
46-64): the manifest's fields, the architecture of every target, and the
summed image sizes divided by the number of targets with Rust `i64`
division (`none` models the division-by-zero panic on an empty target
list). -/
def postToRegistryEntry (input : AddonFileEntry)
    (targets : List BuildInstruction) : Option AddonFileEntryPlusStats :=
  match rustDivI64 (targets.foldl (fun acc t => acc + t.image_size) 0)
      (targets.length : Int) with
  | none => none
  | some size =>
    some
      { services := input.services.map
          (fun p => (p.1, stripService (publishedImageTag input) p.2))
        x_ohx_registry := input.x_ohx_registry
        x_runtime := input.x_runtime
        archs := targets.map (fun t => t.arch)
        size := size }

theorem stripService_build_none (tag : String) (s : AddonService) :
    (stripService tag s).build = none := by
  cases h : s.build <;> simp [stripService, h]

/-- C9: for a non-empty target list the published record exists, its
`archs` list is the architecture of every attempted target regardless of
outcome, its `size` is the `i64`-truncated arithmetic mean of all targets'
`image_size` values, no service in it carries a `build` context, every
service that declared one appears with the context stripped and its image
set to `docker.io/openhabx/{id}:{version}`, and every other service is
carried over unchanged. -/
theorem c9_publish_record (input : AddonFileEntry)
    (targets : List BuildInstruction) (h : targets ≠ []) :
    ∃ e, postToRegistryEntry input targets = some e ∧
      e.archs = targets.map (fun t => t.arch) ∧
      (∀ t ∈ targets, t.arch ∈ e.archs) ∧
      e.size = Int.tdiv ((targets.map (fun t => t.image_size)).sum)
        (targets.length : Int) ∧
      (∀ p ∈ e.services, (p.2).build = none) ∧
      (∀ p ∈ input.services, (p.2).build ≠ none →
        (p.1, { p.2 with build := none, image := some (publishedImageTag input) })
          ∈ e.services) ∧
      (∀ p ∈ input.services, (p.2).build = none → p ∈ e.services) := by
  have hlen : (targets.length : Int) ≠ 0 := by
    simpa using h
  unfold postToRegistryEntry rustDivI64
  rw [if_neg hlen]
  refine ⟨_, rfl, rfl, ?_, ?_, ?_, ?_, ?_⟩
  · intro t ht
    exact List.mem_map_of_mem _ ht
  · show Int.tdiv (targets.foldl (fun acc t => acc + t.image_size) 0) _ = _
    rw [List.sum_eq_foldl, List.foldl_map]
  · intro p hp
    rcases List.mem_map.mp hp with ⟨q, hq, rfl⟩
    exact stripService_build_none _ _
  · intro p hp hb
    have : (p.1, stripService (publishedImageTag input) p.2) ∈
        input.services.map
          (fun p => (p.1, stripService (publishedImageTag input) p.2)) :=
      List.mem_map_of_mem _ hp
    simpa [stripService, hb] using this
  · intro p hp hb
    have : (p.1, stripService (publishedImageTag input) p.2) ∈
        input.services.map
          (fun p => (p.1, stripService (publishedImageTag input) p.2)) :=
      List.mem_map_of_mem _ hp
    simpa [stripService, hb] using this

/-- C10: the aggregate-size division of `post_to_registry` has no guard for
an empty target list: with no targets it divides by zero (a panic, `none`
here), and with at least one target the record is always produced. -/
theorem c10_empty_targets_division (input : AddonFileEntry)
    (targets : List BuildInstruction) :
    (targets = [] → postToRegistryEntry input targets = none) ∧
    (targets ≠ [] → (postToRegistryEntry input targets).isSome = true) := by
  constructor
  · intro h
    subst h
    simp [postToRegistryEntry, rustDivI64]
  · intro h
    have hlen : (targets.length : Int) ≠ 0 := by simpa using h
    unfold postToRegistryEntry rustDivI64
    rw [if_neg hlen]
    rfl

/-- Concrete manifest used by the publish witnesses: one service with a
local build context. -/
def sampleCommon : AddonEntryCommon :=
  ⟨"T", none, "D", none, [], [], [], none, "MIT", none, none, "binding",
   "addon1", "1.0", ⟨.AVAILABLE, none, none⟩⟩

def sampleService : AddonService :=
  ⟨none, none, none, none, none, none, none, none, none, some ⟨"."⟩, none, none⟩

def sampleInput : AddonFileEntry :=
  ⟨[("svc", sampleService)], sampleCommon, ⟨128, 512⟩⟩

/-- Witness for C9 at the concrete manifest and the two-target list used
for C7 (sizes 100 and 0). -/
theorem c9_publish_record_witness :
    upTs ≠ [] ∧
    (∃ e, postToRegistryEntry sampleInput upTs = some e ∧
      e.archs = upTs.map (fun t => t.arch) ∧
      (∀ t ∈ upTs, t.arch ∈ e.archs) ∧
      e.size = Int.tdiv ((upTs.map (fun t => t.image_size)).sum)
        (upTs.length : Int) ∧
      (∀ p ∈ e.services, (p.2).build = none) ∧
      (∀ p ∈ sampleInput.services, (p.2).build ≠ none →
        (p.1, { p.2 with build := none, image := some (publishedImageTag sampleInput) })
          ∈ e.services) ∧
      (∀ p ∈ sampleInput.services, (p.2).build = none → p ∈ e.services)) :=
  ⟨by decide, c9_publish_record sampleInput upTs (by decide)⟩

/-- Witness for C10: the empty list divides by zero; the two-target list
produces a record. -/
theorem c10_empty_targets_division_witness :
    postToRegistryEntry sampleInput [] = none ∧
    (upTs ≠ [] ∧ (postToRegistryEntry sampleInput upTs).isSome = true) :=
  ⟨(c10_empty_targets_division sampleInput []).1 rfl,
   ⟨by decide, (c10_empty_targets_division sampleInput upTs).2 (by decide)⟩⟩

end AddonCli
